import Mathlib

/-!
Verification development for the Hercules GPU stiffness core
(`quake/forward_gpu/stiffness.cu` and the accompanying kernel file).

The floating-point (`double`) arithmetic of the source is embedded as exact
rational arithmetic over `ℚ`: every arithmetic statement below is the ideal
(real-number) semantics of the corresponding C expression.  24-scalar
work vectors (`double[24]`, `fvector_t[8]`) are embedded as a 24-field
structure `V24` in node-major layout (`u (3*i+j)` is component `j` of
corner `i`), 3-vectors (`fvector_t`) as the structure `fvector`, and dense
3x3 stiffness sub-matrices (`fmatrix_t`) as the structure `fmatrix`.
-/

/-- Embeds `fvector_t`: one 3-component nodal vector (`f[0..2]`). -/
structure fvector where
  f0 : ℚ
  f1 : ℚ
  f2 : ℚ

attribute [ext] fvector

/-- Embeds a 24-scalar work array (`double[24]` or `fvector_t[8]`),
node-major: field `u(3*i+j)` holds corner `i`, component `j`. -/
structure V24 where
  u0 : ℚ
  u1 : ℚ
  u2 : ℚ
  u3 : ℚ
  u4 : ℚ
  u5 : ℚ
  u6 : ℚ
  u7 : ℚ
  u8 : ℚ
  u9 : ℚ
  u10 : ℚ
  u11 : ℚ
  u12 : ℚ
  u13 : ℚ
  u14 : ℚ
  u15 : ℚ
  u16 : ℚ
  u17 : ℚ
  u18 : ℚ
  u19 : ℚ
  u20 : ℚ
  u21 : ℚ
  u22 : ℚ
  u23 : ℚ

attribute [ext] V24

/-- The all-zero 24-vector (`memset(localForce, 0, 8*sizeof(fvector_t))`). -/
def zero24 : V24 := ⟨0, 0, 0, 0, 0, 0, 0, 0, 0, 0, 0, 0, 0, 0, 0, 0, 0, 0, 0, 0, 0, 0, 0, 0⟩

/-- Corner `i` of a node-major 24-vector, as an `fvector` (`un[i]`). -/
def V24.corner (v : V24) (i : Fin 8) : fvector :=
  match i.val with
  | 0 => ⟨v.u0, v.u1, v.u2⟩
  | 1 => ⟨v.u3, v.u4, v.u5⟩
  | 2 => ⟨v.u6, v.u7, v.u8⟩
  | 3 => ⟨v.u9, v.u10, v.u11⟩
  | 4 => ⟨v.u12, v.u13, v.u14⟩
  | 5 => ⟨v.u15, v.u16, v.u17⟩
  | 6 => ⟨v.u18, v.u19, v.u20⟩
  | _ => ⟨v.u21, v.u22, v.u23⟩

/-- Component `j` of an `fvector` (`v.f[j]`). -/
def fvector.comp (v : fvector) (j : Fin 3) : ℚ :=
  match j.val with
  | 0 => v.f0
  | 1 => v.f1
  | _ => v.f2

/-- Assembles 8 corner vectors into a node-major 24-vector
(the gather loop `curDisp[i].f[j] = tm1Disp->f[j]`). -/
def assembleDisp (d : Fin 8 → fvector) : V24 :=
  ⟨(d 0).f0, (d 0).f1, (d 0).f2, (d 1).f0, (d 1).f1, (d 1).f2,
   (d 2).f0, (d 2).f1, (d 2).f2, (d 3).f0, (d 3).f1, (d 3).f2,
   (d 4).f0, (d 4).f1, (d 4).f2, (d 5).f0, (d 5).f1, (d 5).f2,
   (d 6).f0, (d 6).f1, (d 6).f2, (d 7).f0, (d 7).f1, (d 7).f2⟩

/-- Embeds `UNDERFLOW_CAP_STIFFNESS` (1e-20). -/
def UNDERFLOW_CAP_STIFFNESS : ℚ := 1e-20

/-- Embeds `vector_is_zero`: returns `true` (C: 1) when at least one of the
24 displacement components has magnitude strictly above the underflow cap,
`false` (C: 0) when all components are below or at the cap. -/
def vector_is_zero (v : V24) : Bool :=
  decide (∃ i : Fin 8, ∃ j : Fin 3, UNDERFLOW_CAP_STIFFNESS < |(v.corner i).comp j|)

/-- Embeds `reformU`: permutes 24 scalars from node-major to axis-major
layout (all 8 x-components, then y, then z). -/
def reformU (u : V24) : V24 :=
  ⟨u.u0, u.u3, u.u6, u.u9, u.u12, u.u15, u.u18, u.u21,
   u.u1, u.u4, u.u7, u.u10, u.u13, u.u16, u.u19, u.u22,
   u.u2, u.u5, u.u8, u.u11, u.u14, u.u17, u.u20, u.u23⟩

/-- Embeds `reformF`: permutes 24 scalars from axis-major back to
node-major layout. -/
def reformF (u : V24) : V24 :=
  ⟨u.u0, u.u8, u.u16, u.u1, u.u9, u.u17, u.u2, u.u10,
   u.u18, u.u3, u.u11, u.u19, u.u4, u.u12, u.u20, u.u5,
   u.u13, u.u21, u.u6, u.u14, u.u22, u.u7, u.u15, u.u23⟩

/-- Embeds `aTransposeU`: flattens the 8 corner displacements (node-major),
reorders to axis-major via `reformU`, then applies the fixed 8x8 sign
transform to each axis block; the first row of each block is set to 0. -/
def aTransposeU (un : V24) : V24 :=
  let u := reformU un
  ⟨0,
   -u.u0 - u.u1 - u.u2 - u.u3 + u.u4 + u.u5 + u.u6 + u.u7,
   -u.u0 - u.u1 + u.u2 + u.u3 - u.u4 - u.u5 + u.u6 + u.u7,
   -u.u0 + u.u1 - u.u2 + u.u3 - u.u4 + u.u5 - u.u6 + u.u7,
   u.u0 + u.u1 - u.u2 - u.u3 - u.u4 - u.u5 + u.u6 + u.u7,
   u.u0 - u.u1 + u.u2 - u.u3 - u.u4 + u.u5 - u.u6 + u.u7,
   u.u0 - u.u1 - u.u2 + u.u3 + u.u4 - u.u5 - u.u6 + u.u7,
   -u.u0 + u.u1 + u.u2 - u.u3 + u.u4 - u.u5 - u.u6 + u.u7,
   0,
   -u.u8 - u.u9 - u.u10 - u.u11 + u.u12 + u.u13 + u.u14 + u.u15,
   -u.u8 - u.u9 + u.u10 + u.u11 - u.u12 - u.u13 + u.u14 + u.u15,
   -u.u8 + u.u9 - u.u10 + u.u11 - u.u12 + u.u13 - u.u14 + u.u15,
   u.u8 + u.u9 - u.u10 - u.u11 - u.u12 - u.u13 + u.u14 + u.u15,
   u.u8 - u.u9 + u.u10 - u.u11 - u.u12 + u.u13 - u.u14 + u.u15,
   u.u8 - u.u9 - u.u10 + u.u11 + u.u12 - u.u13 - u.u14 + u.u15,
   -u.u8 + u.u9 + u.u10 - u.u11 + u.u12 - u.u13 - u.u14 + u.u15,
   0,
   -u.u16 - u.u17 - u.u18 - u.u19 + u.u20 + u.u21 + u.u22 + u.u23,
   -u.u16 - u.u17 + u.u18 + u.u19 - u.u20 - u.u21 + u.u22 + u.u23,
   -u.u16 + u.u17 - u.u18 + u.u19 - u.u20 + u.u21 - u.u22 + u.u23,
   u.u16 + u.u17 - u.u18 - u.u19 - u.u20 - u.u21 + u.u22 + u.u23,
   u.u16 - u.u17 + u.u18 - u.u19 - u.u20 + u.u21 - u.u22 + u.u23,
   u.u16 - u.u17 - u.u18 + u.u19 + u.u20 - u.u21 - u.u22 + u.u23,
   -u.u16 + u.u17 + u.u18 - u.u19 + u.u20 - u.u21 - u.u22 + u.u23⟩

/-- Embeds `firstVector`: the coefficient-parameterized combine step.  The
parameter order mirrors the C signature `firstVector(atu, finalVector, a, c, b)`;
the evaluators pass `(first_coeff, second_coeff, third_coeff)` positionally,
so inside this function `a` is the first, `c` the second and `b` the third
effective coefficient. -/
def firstVector (atu : V24) (a c b : ℚ) : V24 :=
  ⟨0,
   b * (atu.u19 + atu.u1),
   b * (atu.u11 + atu.u2),
   a * atu.u3 + c * (atu.u10 + atu.u17),
   b * (atu.u13 + atu.u22 + 2 * atu.u4) / 3,
   ((a + b) * atu.u5 + c * atu.u12) / 3,
   ((a + b) * atu.u6 + c * atu.u20) / 3,
   ((a + 2 * b) * atu.u7) / 9,
   0,
   b * (atu.u18 + atu.u9),
   a * atu.u10 + c * (atu.u3 + atu.u17),
   b * (atu.u11 + atu.u2),
   ((a + b) * atu.u12 + c * atu.u5) / 3,
   b * (atu.u4 + atu.u22 + 2 * atu.u13) / 3,
   ((a + b) * atu.u14 + c * atu.u21) / 3,
   (a + 2 * b) * atu.u15 / 9,
   0,
   a * atu.u17 + c * (atu.u3 + atu.u10),
   b * (atu.u18 + atu.u9),
   b * (atu.u19 + atu.u1),
   ((a + b) * atu.u20 + c * atu.u6) / 3,
   ((a + b) * atu.u21 + c * atu.u14) / 3,
   b * (atu.u4 + atu.u13 + 2 * atu.u22) / 3,
   (a + 2 * b) * atu.u23 / 9⟩

/-- Embeds `au`: the inverse 8x8 sign transform applied per axis block,
followed by the `reformF` reorder back to node-major; the result is added
into (not overwritten over) the caller's accumulator `resVec`. -/
def au (resVec : V24) (u : V24) : V24 :=
  let finVec : V24 :=
    ⟨u.u0 - u.u1 - u.u2 - u.u3 + u.u4 + u.u5 + u.u6 - u.u7,
     u.u0 - u.u1 - u.u2 + u.u3 + u.u4 - u.u5 - u.u6 + u.u7,
     u.u0 - u.u1 + u.u2 - u.u3 - u.u4 + u.u5 - u.u6 + u.u7,
     u.u0 - u.u1 + u.u2 + u.u3 - u.u4 - u.u5 + u.u6 - u.u7,
     u.u0 + u.u1 - u.u2 - u.u3 - u.u4 - u.u5 + u.u6 + u.u7,
     u.u0 + u.u1 - u.u2 + u.u3 - u.u4 + u.u5 - u.u6 - u.u7,
     u.u0 + u.u1 + u.u2 - u.u3 + u.u4 - u.u5 - u.u6 - u.u7,
     u.u0 + u.u1 + u.u2 + u.u3 + u.u4 + u.u5 + u.u6 + u.u7,
     u.u8 - u.u9 - u.u10 - u.u11 + u.u12 + u.u13 + u.u14 - u.u15,
     u.u8 - u.u9 - u.u10 + u.u11 + u.u12 - u.u13 - u.u14 + u.u15,
     u.u8 - u.u9 + u.u10 - u.u11 - u.u12 + u.u13 - u.u14 + u.u15,
     u.u8 - u.u9 + u.u10 + u.u11 - u.u12 - u.u13 + u.u14 - u.u15,
     u.u8 + u.u9 - u.u10 - u.u11 - u.u12 - u.u13 + u.u14 + u.u15,
     u.u8 + u.u9 - u.u10 + u.u11 - u.u12 + u.u13 - u.u14 - u.u15,
     u.u8 + u.u9 + u.u10 - u.u11 + u.u12 - u.u13 - u.u14 - u.u15,
     u.u8 + u.u9 + u.u10 + u.u11 + u.u12 + u.u13 + u.u14 + u.u15,
     u.u16 - u.u17 - u.u18 - u.u19 + u.u20 + u.u21 + u.u22 - u.u23,
     u.u16 - u.u17 - u.u18 + u.u19 + u.u20 - u.u21 - u.u22 + u.u23,
     u.u16 - u.u17 + u.u18 - u.u19 - u.u20 + u.u21 - u.u22 + u.u23,
     u.u16 - u.u17 + u.u18 + u.u19 - u.u20 - u.u21 + u.u22 - u.u23,
     u.u16 + u.u17 - u.u18 - u.u19 - u.u20 - u.u21 + u.u22 + u.u23,
     u.u16 + u.u17 - u.u18 + u.u19 - u.u20 + u.u21 - u.u22 - u.u23,
     u.u16 + u.u17 + u.u18 - u.u19 + u.u20 - u.u21 - u.u22 - u.u23,
     u.u16 + u.u17 + u.u18 + u.u19 + u.u20 + u.u21 + u.u22 + u.u23⟩
  let temp := reformF finVec
  ⟨resVec.u0 + temp.u0, resVec.u1 + temp.u1, resVec.u2 + temp.u2,
   resVec.u3 + temp.u3, resVec.u4 + temp.u4, resVec.u5 + temp.u5,
   resVec.u6 + temp.u6, resVec.u7 + temp.u7, resVec.u8 + temp.u8,
   resVec.u9 + temp.u9, resVec.u10 + temp.u10, resVec.u11 + temp.u11,
   resVec.u12 + temp.u12, resVec.u13 + temp.u13, resVec.u14 + temp.u14,
   resVec.u15 + temp.u15, resVec.u16 + temp.u16, resVec.u17 + temp.u17,
   resVec.u18 + temp.u18, resVec.u19 + temp.u19, resVec.u20 + temp.u20,
   resVec.u21 + temp.u21, resVec.u22 + temp.u22, resVec.u23 + temp.u23⟩

/-- Embeds `first_coeff = -0.5625 * (ep->c2 + 2 * ep->c1)`. -/
def first_coeff (c1 c2 : ℚ) : ℚ := -0.5625 * (c2 + 2 * c1)

/-- Embeds `second_coeff = -0.5625 * (ep->c2)`. -/
def second_coeff (c1 c2 : ℚ) : ℚ := -0.5625 * c2

/-- Embeds `third_coeff = -0.5625 * (ep->c1)`. -/
def third_coeff (c1 c2 : ℚ) : ℚ := -0.5625 * c1

/-- The per-element body shared verbatim by `compute_addforce_effective_cpu`
and `kernelStiffnessCalcLocal`: zero the local force, and unless all 24
displacement components are at or below the underflow cap, derive the three
effective coefficients and run the transform chain
`aTransposeU`, `firstVector`, `au`. -/
def effectiveLocalForce (c1 c2 : ℚ) (curDisp : V24) : V24 :=
  if vector_is_zero curDisp then
    au zero24
      (firstVector (aTransposeU curDisp)
        (first_coeff c1 c2) (second_coeff c1 c2) (third_coeff c1 c2))
  else zero24

/-- Embeds `fmatrix_t`: a dense 3x3 stiffness sub-matrix, row-major. -/
structure fmatrix where
  f00 : ℚ
  f01 : ℚ
  f02 : ℚ
  f10 : ℚ
  f11 : ℚ
  f12 : ℚ
  f20 : ℚ
  f21 : ℚ
  f22 : ℚ

attribute [ext] fmatrix

/-- Modelled from the spec: `MultAddMatVec(M, v, coef, to)` is owned by an
external utility collaborator (its definition is not part of this core); the
spec describes the conventional path as summing "the product of two
precomputed dense 3x3 sub-matrices against neighbor j's displacement,
scaled by -c1 and -c2", so the primitive adds `coef * (M * v)` into `to`. -/
def MultAddMatVec (m : fmatrix) (v : fvector) (coef : ℚ) (toF : fvector) : fvector :=
  ⟨toF.f0 + coef * (m.f00 * v.f0 + m.f01 * v.f1 + m.f02 * v.f2),
   toF.f1 + coef * (m.f10 * v.f0 + m.f11 * v.f1 + m.f12 * v.f2),
   toF.f2 + coef * (m.f20 * v.f0 + m.f21 * v.f1 + m.f22 * v.f2)⟩

/-- Modelled from the spec: `vector_is_all_zero` is owned by an external
utility collaborator; the spec says the conventional path skips an `(i, j)`
pair "when neighbor j's displacement is exactly zero (pure performance
optimization, not semantic)", so the guard returns `true` (C: nonzero)
exactly when some component of the displacement is nonzero. -/
def vector_is_all_zero (v : fvector) : Bool :=
  decide (¬(v.f0 = 0 ∧ v.f1 = 0 ∧ v.f2 = 0))

/-- One iteration of the inner `j` loop of `compute_addforce_conventional`:
when neighbor `j`'s displacement is nonzero, add the `K1` contribution
scaled by `-c1` and then the `K2` contribution scaled by `-c2`. -/
def convStep (k1 k2 : fmatrix) (c1 c2 : ℚ) (myDisp : fvector) (toForce : fvector) : fvector :=
  if vector_is_all_zero myDisp then
    MultAddMatVec k2 myDisp (-c2) (MultAddMatVec k1 myDisp (-c1) toForce)
  else toForce

/-- Embeds the per-element body of `compute_addforce_conventional`: corner
`i`'s local force starts from zero and accumulates the guarded `K1`/`K2`
contributions of neighbors `j = 0..7` in loop order. -/
def conventionalLocalForce (k1 k2 : Fin 8 → Fin 8 → fmatrix) (c1 c2 : ℚ)
    (curDisp : V24) (i : Fin 8) : fvector :=
  convStep (k1 i 7) (k2 i 7) c1 c2 (curDisp.corner 7)
    (convStep (k1 i 6) (k2 i 6) c1 c2 (curDisp.corner 6)
      (convStep (k1 i 5) (k2 i 5) c1 c2 (curDisp.corner 5)
        (convStep (k1 i 4) (k2 i 4) c1 c2 (curDisp.corner 4)
          (convStep (k1 i 3) (k2 i 3) c1 c2 (curDisp.corner 3)
            (convStep (k1 i 2) (k2 i 2) c1 c2 (curDisp.corner 2)
              (convStep (k1 i 1) (k2 i 1) c1 c2 (curDisp.corner 1)
                (convStep (k1 i 0) (k2 i 0) c1 c2 (curDisp.corner 0)
                  ⟨0, 0, 0⟩)))))))

/-- Modelled from the spec: the dense sub-matrix table `theK1` is owned
externally ("global per-element-type or per-element tables owned
externally"); the spec fixes it as the `c1`-part of the element's true
24x24 unit-hexahedron stiffness matrix, the matrix the effective
decomposition "is algebraically equivalent to multiplying by".  Entry
`(i, j)` is the 3x3 block coupling corner `i` to corner `j`. -/
def theK1 (i j : Fin 8) : fmatrix :=
  match i.val, j.val with
  | 0, 0 => ⟨4, (3/4), (3/4), (3/4), 4, (3/4), (3/4), (3/4), 4⟩
  | 0, 1 => ⟨(-1), (-3/4), (-3/4), (3/4), (1/2), (3/8), (3/4), (3/8), (1/2)⟩
  | 0, 2 => ⟨(1/2), (3/4), (3/8), (-3/4), (-1), (-3/4), (3/8), (3/4), (1/2)⟩
  | 0, 3 => ⟨(-5/4), (-3/4), (-3/8), (-3/4), (-5/4), (-3/8), (3/8), (3/8), (-1/2)⟩
  | 0, 4 => ⟨(1/2), (3/8), (3/4), (3/8), (1/2), (3/4), (-3/4), (-3/4), (-1)⟩
  | 0, 5 => ⟨(-5/4), (-3/8), (-3/4), (3/8), (-1/2), (3/8), (-3/4), (-3/8), (-5/4)⟩
  | 0, 6 => ⟨(-1/2), (3/8), (3/8), (-3/8), (-5/4), (-3/4), (-3/8), (-3/4), (-5/4)⟩
  | 0, 7 => ⟨(-1), (-3/8), (-3/8), (-3/8), (-1), (-3/8), (-3/8), (-3/8), (-1)⟩
  | 1, 0 => ⟨(-1), (3/4), (3/4), (-3/4), (1/2), (3/8), (-3/4), (3/8), (1/2)⟩
  | 1, 1 => ⟨4, (-3/4), (-3/4), (-3/4), 4, (3/4), (-3/4), (3/4), 4⟩
  | 1, 2 => ⟨(-5/4), (3/4), (3/8), (3/4), (-5/4), (-3/8), (-3/8), (3/8), (-1/2)⟩
  | 1, 3 => ⟨(1/2), (-3/4), (-3/8), (3/4), (-1), (-3/4), (-3/8), (3/4), (1/2)⟩
  | 1, 4 => ⟨(-5/4), (3/8), (3/4), (-3/8), (-1/2), (3/8), (3/4), (-3/8), (-5/4)⟩
  | 1, 5 => ⟨(1/2), (-3/8), (-3/4), (-3/8), (1/2), (3/4), (3/4), (-3/4), (-1)⟩
  | 1, 6 => ⟨(-1), (3/8), (3/8), (3/8), (-1), (-3/8), (3/8), (-3/8), (-1)⟩
  | 1, 7 => ⟨(-1/2), (-3/8), (-3/8), (3/8), (-5/4), (-3/4), (3/8), (-3/4), (-5/4)⟩
  | 2, 0 => ⟨(1/2), (-3/4), (3/8), (3/4), (-1), (3/4), (3/8), (-3/4), (1/2)⟩
  | 2, 1 => ⟨(-5/4), (3/4), (-3/8), (3/4), (-5/4), (3/8), (3/8), (-3/8), (-1/2)⟩
  | 2, 2 => ⟨4, (-3/4), (3/4), (-3/4), 4, (-3/4), (3/4), (-3/4), 4⟩
  | 2, 3 => ⟨(-1), (3/4), (-3/4), (-3/4), (1/2), (-3/8), (3/4), (-3/8), (1/2)⟩
  | 2, 4 => ⟨(-1/2), (-3/8), (3/8), (3/8), (-5/4), (3/4), (-3/8), (3/4), (-5/4)⟩
  | 2, 5 => ⟨(-1), (3/8), (-3/8), (3/8), (-1), (3/8), (-3/8), (3/8), (-1)⟩
  | 2, 6 => ⟨(1/2), (-3/8), (3/4), (-3/8), (1/2), (-3/4), (-3/4), (3/4), (-1)⟩
  | 2, 7 => ⟨(-5/4), (3/8), (-3/4), (-3/8), (-1/2), (-3/8), (-3/4), (3/8), (-5/4)⟩
  | 3, 0 => ⟨(-5/4), (-3/4), (3/8), (-3/4), (-5/4), (3/8), (-3/8), (-3/8), (-1/2)⟩
  | 3, 1 => ⟨(1/2), (3/4), (-3/8), (-3/4), (-1), (3/4), (-3/8), (-3/4), (1/2)⟩
  | 3, 2 => ⟨(-1), (-3/4), (3/4), (3/4), (1/2), (-3/8), (-3/4), (-3/8), (1/2)⟩
  | 3, 3 => ⟨4, (3/4), (-3/4), (3/4), 4, (-3/4), (-3/4), (-3/4), 4⟩
  | 3, 4 => ⟨(-1), (-3/8), (3/8), (-3/8), (-1), (3/8), (3/8), (3/8), (-1)⟩
  | 3, 5 => ⟨(-1/2), (3/8), (-3/8), (-3/8), (-5/4), (3/4), (3/8), (3/4), (-5/4)⟩
  | 3, 6 => ⟨(-5/4), (-3/8), (3/4), (3/8), (-1/2), (-3/8), (3/4), (3/8), (-5/4)⟩
  | 3, 7 => ⟨(1/2), (3/8), (-3/4), (3/8), (1/2), (-3/4), (3/4), (3/4), (-1)⟩
  | 4, 0 => ⟨(1/2), (3/8), (-3/4), (3/8), (1/2), (-3/4), (3/4), (3/4), (-1)⟩
  | 4, 1 => ⟨(-5/4), (-3/8), (3/4), (3/8), (-1/2), (-3/8), (3/4), (3/8), (-5/4)⟩
  | 4, 2 => ⟨(-1/2), (3/8), (-3/8), (-3/8), (-5/4), (3/4), (3/8), (3/4), (-5/4)⟩
  | 4, 3 => ⟨(-1), (-3/8), (3/8), (-3/8), (-1), (3/8), (3/8), (3/8), (-1)⟩
  | 4, 4 => ⟨4, (3/4), (-3/4), (3/4), 4, (-3/4), (-3/4), (-3/4), 4⟩
  | 4, 5 => ⟨(-1), (-3/4), (3/4), (3/4), (1/2), (-3/8), (-3/4), (-3/8), (1/2)⟩
  | 4, 6 => ⟨(1/2), (3/4), (-3/8), (-3/4), (-1), (3/4), (-3/8), (-3/4), (1/2)⟩
  | 4, 7 => ⟨(-5/4), (-3/4), (3/8), (-3/4), (-5/4), (3/8), (-3/8), (-3/8), (-1/2)⟩
  | 5, 0 => ⟨(-5/4), (3/8), (-3/4), (-3/8), (-1/2), (-3/8), (-3/4), (3/8), (-5/4)⟩
  | 5, 1 => ⟨(1/2), (-3/8), (3/4), (-3/8), (1/2), (-3/4), (-3/4), (3/4), (-1)⟩
  | 5, 2 => ⟨(-1), (3/8), (-3/8), (3/8), (-1), (3/8), (-3/8), (3/8), (-1)⟩
  | 5, 3 => ⟨(-1/2), (-3/8), (3/8), (3/8), (-5/4), (3/4), (-3/8), (3/4), (-5/4)⟩
  | 5, 4 => ⟨(-1), (3/4), (-3/4), (-3/4), (1/2), (-3/8), (3/4), (-3/8), (1/2)⟩
  | 5, 5 => ⟨4, (-3/4), (3/4), (-3/4), 4, (-3/4), (3/4), (-3/4), 4⟩
  | 5, 6 => ⟨(-5/4), (3/4), (-3/8), (3/4), (-5/4), (3/8), (3/8), (-3/8), (-1/2)⟩
  | 5, 7 => ⟨(1/2), (-3/4), (3/8), (3/4), (-1), (3/4), (3/8), (-3/4), (1/2)⟩
  | 6, 0 => ⟨(-1/2), (-3/8), (-3/8), (3/8), (-5/4), (-3/4), (3/8), (-3/4), (-5/4)⟩
  | 6, 1 => ⟨(-1), (3/8), (3/8), (3/8), (-1), (-3/8), (3/8), (-3/8), (-1)⟩
  | 6, 2 => ⟨(1/2), (-3/8), (-3/4), (-3/8), (1/2), (3/4), (3/4), (-3/4), (-1)⟩
  | 6, 3 => ⟨(-5/4), (3/8), (3/4), (-3/8), (-1/2), (3/8), (3/4), (-3/8), (-5/4)⟩
  | 6, 4 => ⟨(1/2), (-3/4), (-3/8), (3/4), (-1), (-3/4), (-3/8), (3/4), (1/2)⟩
  | 6, 5 => ⟨(-5/4), (3/4), (3/8), (3/4), (-5/4), (-3/8), (-3/8), (3/8), (-1/2)⟩
  | 6, 6 => ⟨4, (-3/4), (-3/4), (-3/4), 4, (3/4), (-3/4), (3/4), 4⟩
  | 6, 7 => ⟨(-1), (3/4), (3/4), (-3/4), (1/2), (3/8), (-3/4), (3/8), (1/2)⟩
  | 7, 0 => ⟨(-1), (-3/8), (-3/8), (-3/8), (-1), (-3/8), (-3/8), (-3/8), (-1)⟩
  | 7, 1 => ⟨(-1/2), (3/8), (3/8), (-3/8), (-5/4), (-3/4), (-3/8), (-3/4), (-5/4)⟩
  | 7, 2 => ⟨(-5/4), (-3/8), (-3/4), (3/8), (-1/2), (3/8), (-3/4), (-3/8), (-5/4)⟩
  | 7, 3 => ⟨(1/2), (3/8), (3/4), (3/8), (1/2), (3/4), (-3/4), (-3/4), (-1)⟩
  | 7, 4 => ⟨(-5/4), (-3/4), (-3/8), (-3/4), (-5/4), (-3/8), (3/8), (3/8), (-1/2)⟩
  | 7, 5 => ⟨(1/2), (3/4), (3/8), (-3/4), (-1), (-3/4), (3/8), (3/4), (1/2)⟩
  | 7, 6 => ⟨(-1), (-3/4), (-3/4), (3/4), (1/2), (3/8), (3/4), (3/8), (1/2)⟩
  | 7, 7 => ⟨4, (3/4), (3/4), (3/4), 4, (3/4), (3/4), (3/4), 4⟩
  | _, _ => ⟨0, 0, 0, 0, 0, 0, 0, 0, 0⟩

/-- Modelled from the spec: the `c2`-part of the element's true 24x24
unit-hexahedron stiffness matrix; see `theK1`. -/
def theK2 (i j : Fin 8) : fmatrix :=
  match i.val, j.val with
  | 0, 0 => ⟨1, (3/4), (3/4), (3/4), 1, (3/4), (3/4), (3/4), 1⟩
  | 0, 1 => ⟨(-1), (3/4), (3/4), (-3/4), (1/2), (3/8), (-3/4), (3/8), (1/2)⟩
  | 0, 2 => ⟨(1/2), (-3/4), (3/8), (3/4), (-1), (3/4), (3/8), (-3/4), (1/2)⟩
  | 0, 3 => ⟨(-1/2), (-3/4), (3/8), (-3/4), (-1/2), (3/8), (-3/8), (-3/8), (1/4)⟩
  | 0, 4 => ⟨(1/2), (3/8), (-3/4), (3/8), (1/2), (-3/4), (3/4), (3/4), (-1)⟩
  | 0, 5 => ⟨(-1/2), (3/8), (-3/4), (-3/8), (1/4), (-3/8), (-3/4), (3/8), (-1/2)⟩
  | 0, 6 => ⟨(1/4), (-3/8), (-3/8), (3/8), (-1/2), (-3/4), (3/8), (-3/4), (-1/2)⟩
  | 0, 7 => ⟨(-1/4), (-3/8), (-3/8), (-3/8), (-1/4), (-3/8), (-3/8), (-3/8), (-1/4)⟩
  | 1, 0 => ⟨(-1), (-3/4), (-3/4), (3/4), (1/2), (3/8), (3/4), (3/8), (1/2)⟩
  | 1, 1 => ⟨1, (-3/4), (-3/4), (-3/4), 1, (3/4), (-3/4), (3/4), 1⟩
  | 1, 2 => ⟨(-1/2), (3/4), (-3/8), (3/4), (-1/2), (3/8), (3/8), (-3/8), (1/4)⟩
  | 1, 3 => ⟨(1/2), (3/4), (-3/8), (-3/4), (-1), (3/4), (-3/8), (-3/4), (1/2)⟩
  | 1, 4 => ⟨(-1/2), (-3/8), (3/4), (3/8), (1/4), (-3/8), (3/4), (3/8), (-1/2)⟩
  | 1, 5 => ⟨(1/2), (-3/8), (3/4), (-3/8), (1/2), (-3/4), (-3/4), (3/4), (-1)⟩
  | 1, 6 => ⟨(-1/4), (3/8), (3/8), (3/8), (-1/4), (-3/8), (3/8), (-3/8), (-1/4)⟩
  | 1, 7 => ⟨(1/4), (3/8), (3/8), (-3/8), (-1/2), (-3/4), (-3/8), (-3/4), (-1/2)⟩
  | 2, 0 => ⟨(1/2), (3/4), (3/8), (-3/4), (-1), (-3/4), (3/8), (3/4), (1/2)⟩
  | 2, 1 => ⟨(-1/2), (3/4), (3/8), (3/4), (-1/2), (-3/8), (-3/8), (3/8), (1/4)⟩
  | 2, 2 => ⟨1, (-3/4), (3/4), (-3/4), 1, (-3/4), (3/4), (-3/4), 1⟩
  | 2, 3 => ⟨(-1), (-3/4), (3/4), (3/4), (1/2), (-3/8), (-3/4), (-3/8), (1/2)⟩
  | 2, 4 => ⟨(1/4), (3/8), (-3/8), (-3/8), (-1/2), (3/4), (3/8), (3/4), (-1/2)⟩
  | 2, 5 => ⟨(-1/4), (3/8), (-3/8), (3/8), (-1/4), (3/8), (-3/8), (3/8), (-1/4)⟩
  | 2, 6 => ⟨(1/2), (-3/8), (-3/4), (-3/8), (1/2), (3/4), (3/4), (-3/4), (-1)⟩
  | 2, 7 => ⟨(-1/2), (-3/8), (-3/4), (3/8), (1/4), (3/8), (-3/4), (-3/8), (-1/2)⟩
  | 3, 0 => ⟨(-1/2), (-3/4), (-3/8), (-3/4), (-1/2), (-3/8), (3/8), (3/8), (1/4)⟩
  | 3, 1 => ⟨(1/2), (-3/4), (-3/8), (3/4), (-1), (-3/4), (-3/8), (3/4), (1/2)⟩
  | 3, 2 => ⟨(-1), (3/4), (-3/4), (-3/4), (1/2), (-3/8), (3/4), (-3/8), (1/2)⟩
  | 3, 3 => ⟨1, (3/4), (-3/4), (3/4), 1, (-3/4), (-3/4), (-3/4), 1⟩
  | 3, 4 => ⟨(-1/4), (-3/8), (3/8), (-3/8), (-1/4), (3/8), (3/8), (3/8), (-1/4)⟩
  | 3, 5 => ⟨(1/4), (-3/8), (3/8), (3/8), (-1/2), (3/4), (-3/8), (3/4), (-1/2)⟩
  | 3, 6 => ⟨(-1/2), (3/8), (3/4), (-3/8), (1/4), (3/8), (3/4), (-3/8), (-1/2)⟩
  | 3, 7 => ⟨(1/2), (3/8), (3/4), (3/8), (1/2), (3/4), (-3/4), (-3/4), (-1)⟩
  | 4, 0 => ⟨(1/2), (3/8), (3/4), (3/8), (1/2), (3/4), (-3/4), (-3/4), (-1)⟩
  | 4, 1 => ⟨(-1/2), (3/8), (3/4), (-3/8), (1/4), (3/8), (3/4), (-3/8), (-1/2)⟩
  | 4, 2 => ⟨(1/4), (-3/8), (3/8), (3/8), (-1/2), (3/4), (-3/8), (3/4), (-1/2)⟩
  | 4, 3 => ⟨(-1/4), (-3/8), (3/8), (-3/8), (-1/4), (3/8), (3/8), (3/8), (-1/4)⟩
  | 4, 4 => ⟨1, (3/4), (-3/4), (3/4), 1, (-3/4), (-3/4), (-3/4), 1⟩
  | 4, 5 => ⟨(-1), (3/4), (-3/4), (-3/4), (1/2), (-3/8), (3/4), (-3/8), (1/2)⟩
  | 4, 6 => ⟨(1/2), (-3/4), (-3/8), (3/4), (-1), (-3/4), (-3/8), (3/4), (1/2)⟩
  | 4, 7 => ⟨(-1/2), (-3/4), (-3/8), (-3/4), (-1/2), (-3/8), (3/8), (3/8), (1/4)⟩
  | 5, 0 => ⟨(-1/2), (-3/8), (-3/4), (3/8), (1/4), (3/8), (-3/4), (-3/8), (-1/2)⟩
  | 5, 1 => ⟨(1/2), (-3/8), (-3/4), (-3/8), (1/2), (3/4), (3/4), (-3/4), (-1)⟩
  | 5, 2 => ⟨(-1/4), (3/8), (-3/8), (3/8), (-1/4), (3/8), (-3/8), (3/8), (-1/4)⟩
  | 5, 3 => ⟨(1/4), (3/8), (-3/8), (-3/8), (-1/2), (3/4), (3/8), (3/4), (-1/2)⟩
  | 5, 4 => ⟨(-1), (-3/4), (3/4), (3/4), (1/2), (-3/8), (-3/4), (-3/8), (1/2)⟩
  | 5, 5 => ⟨1, (-3/4), (3/4), (-3/4), 1, (-3/4), (3/4), (-3/4), 1⟩
  | 5, 6 => ⟨(-1/2), (3/4), (3/8), (3/4), (-1/2), (-3/8), (-3/8), (3/8), (1/4)⟩
  | 5, 7 => ⟨(1/2), (3/4), (3/8), (-3/4), (-1), (-3/4), (3/8), (3/4), (1/2)⟩
  | 6, 0 => ⟨(1/4), (3/8), (3/8), (-3/8), (-1/2), (-3/4), (-3/8), (-3/4), (-1/2)⟩
  | 6, 1 => ⟨(-1/4), (3/8), (3/8), (3/8), (-1/4), (-3/8), (3/8), (-3/8), (-1/4)⟩
  | 6, 2 => ⟨(1/2), (-3/8), (3/4), (-3/8), (1/2), (-3/4), (-3/4), (3/4), (-1)⟩
  | 6, 3 => ⟨(-1/2), (-3/8), (3/4), (3/8), (1/4), (-3/8), (3/4), (3/8), (-1/2)⟩
  | 6, 4 => ⟨(1/2), (3/4), (-3/8), (-3/4), (-1), (3/4), (-3/8), (-3/4), (1/2)⟩
  | 6, 5 => ⟨(-1/2), (3/4), (-3/8), (3/4), (-1/2), (3/8), (3/8), (-3/8), (1/4)⟩
  | 6, 6 => ⟨1, (-3/4), (-3/4), (-3/4), 1, (3/4), (-3/4), (3/4), 1⟩
  | 6, 7 => ⟨(-1), (-3/4), (-3/4), (3/4), (1/2), (3/8), (3/4), (3/8), (1/2)⟩
  | 7, 0 => ⟨(-1/4), (-3/8), (-3/8), (-3/8), (-1/4), (-3/8), (-3/8), (-3/8), (-1/4)⟩
  | 7, 1 => ⟨(1/4), (-3/8), (-3/8), (3/8), (-1/2), (-3/4), (3/8), (-3/4), (-1/2)⟩
  | 7, 2 => ⟨(-1/2), (3/8), (-3/4), (-3/8), (1/4), (-3/8), (-3/4), (3/8), (-1/2)⟩
  | 7, 3 => ⟨(1/2), (3/8), (-3/4), (3/8), (1/2), (-3/4), (3/4), (3/4), (-1)⟩
  | 7, 4 => ⟨(-1/2), (-3/4), (3/8), (-3/4), (-1/2), (3/8), (-3/8), (-3/8), (1/4)⟩
  | 7, 5 => ⟨(1/2), (-3/4), (3/8), (3/4), (-1), (3/4), (3/8), (-3/4), (1/2)⟩
  | 7, 6 => ⟨(-1), (3/4), (3/4), (-3/4), (1/2), (3/8), (-3/4), (3/8), (1/2)⟩
  | 7, 7 => ⟨1, (3/4), (3/4), (3/4), 1, (3/4), (3/4), (3/4), 1⟩
  | _, _ => ⟨0, 0, 0, 0, 0, 0, 0, 0, 0⟩

/-- Pointwise addition of nodal 3-vectors (`nodalForce->f[k] += ...`). -/
def fvector.add (a b : fvector) : fvector :=
  ⟨a.f0 + b.f0, a.f1 + b.f1, a.f2 + b.f2⟩

instance : Zero fvector := ⟨⟨0, 0, 0⟩⟩

instance : Add fvector := ⟨fvector.add⟩

instance : AddCommMonoid fvector where
  add_assoc a b c := by
    apply fvector.ext <;> (show _ + _ + _ = _ + (_ + _); ring)
  zero_add a := by
    apply fvector.ext <;> (show (0 : ℚ) + _ = _; ring)
  add_zero a := by
    apply fvector.ext <;> (show _ + (0 : ℚ) = _; ring)
  add_comm a b := by
    apply fvector.ext <;> (show _ + _ = _ + _; ring)
  nsmul := nsmulRec

/-- The gather loop of both effective evaluators: corner `i`'s current
displacement is read from the global displacement field `tm1` at node
`lnid i` of element `eindex` (`curDisp[i].f[j] = tm1Disp->f[j]`). -/
def gatherDisp (lnid : ℕ → Fin 8 → ℕ) (tm1 : ℕ → fvector) (eindex : ℕ) : V24 :=
  assembleDisp (fun i => tm1 (lnid eindex i))

/-- Embeds `kernelStiffnessCalcLocal`: one device task per linear-element
index.  A task with `lin_eindex < myLinearElementsCount` looks up its global
element index through the mapper, gathers the element's corner
displacements, and writes the effective local force to its private 8-vector
slice of `localForceDevice`; a task off the end returns without writing, so
the buffer keeps its previous contents there. -/
def kernelStiffnessCalcLocal (myLinearElementsCount : ℕ) (mapper : ℕ → ℕ)
    (lnid : ℕ → Fin 8 → ℕ) (tc1 tc2 : ℕ → ℚ) (tm1 : ℕ → fvector)
    (prevLocalForce : ℕ → V24) : ℕ → V24 :=
  fun lin_eindex =>
    if lin_eindex < myLinearElementsCount then
      effectiveLocalForce (tc1 (mapper lin_eindex)) (tc2 (mapper lin_eindex))
        (gatherDisp lnid tm1 (mapper lin_eindex))
    else prevLocalForce lin_eindex

/-- One corner's scatter-accumulation into the global force array
(`nodalForce->f[k] += localForce[i].f[k]` at node index `n = lnid`). -/
def scatterCorner (lnid : ℕ) (c : fvector) (force : ℕ → fvector) : ℕ → fvector :=
  fun n => if n = lnid then force n + c else force n

/-- The step-2 scatter loop of the host evaluators: the 8 corner forces of
one element are added, in corner order, into the caller's global force
array at the element's node indices. -/
def scatterElement (lnids : Fin 8 → ℕ) (lf : V24) (force : ℕ → fvector) : ℕ → fvector :=
  scatterCorner (lnids 7) (lf.corner 7)
    (scatterCorner (lnids 6) (lf.corner 6)
      (scatterCorner (lnids 5) (lf.corner 5)
        (scatterCorner (lnids 4) (lf.corner 4)
          (scatterCorner (lnids 3) (lf.corner 3)
            (scatterCorner (lnids 2) (lf.corner 2)
              (scatterCorner (lnids 1) (lf.corner 1)
                (scatterCorner (lnids 0) (lf.corner 0) force)))))))

/-- Embeds `compute_addforce_effective_cpu`: the sequential host loop over
the linear-element mapping; each linear element's effective local force is
scattered additively into the global force array. -/
def compute_addforce_effective_cpu (myLinearElementsCount : ℕ) (mapper : ℕ → ℕ)
    (lnid : ℕ → Fin 8 → ℕ) (tc1 tc2 : ℕ → ℚ) (tm1 : ℕ → fvector)
    (force : ℕ → fvector) : ℕ → fvector :=
  (List.range myLinearElementsCount).foldl
    (fun f lin_eindex =>
      scatterElement (lnid (mapper lin_eindex))
        (effectiveLocalForce (tc1 (mapper lin_eindex)) (tc2 (mapper lin_eindex))
          (gatherDisp lnid tm1 (mapper lin_eindex)))
        f)
    force

/-- Embeds `kernelStiffnessAddLocal`: one device task per node.  A task
with `lnid < nharbored` walks its node's Reverse Adjacency Table entry — a
list of (element slice id, corner offset) pairs — and sums those per-element
force contributions into the node's entry of the device force array; a task
off the end returns without writing. -/
def kernelStiffnessAddLocal (nharbored : ℕ) (reverseLookup : ℕ → List (ℕ × Fin 8))
    (localForceDevice : ℕ → V24) (force : ℕ → fvector) : ℕ → fvector :=
  fun lnid =>
    if lnid < nharbored then
      (reverseLookup lnid).foldl
        (fun nodalForce e => nodalForce + (localForceDevice e.1).corner e.2)
        (force lnid)
    else force lnid

/-- Embeds the per-step accelerator pipeline of
`compute_addforce_effective_gpu` (the surrounding solver launches
`kernelStiffnessAddLocal` between the two staging copies): the host force
array is copied over the device-resident force copy, the per-element kernel
fills the private local-force slices, the per-node kernel reduces them, and
the device force array is copied back over the host array.  Both staging
copies transfer exactly `nharbored` node entries. -/
def compute_addforce_effective_gpu (nharbored : ℕ) (myLinearElementsCount : ℕ)
    (mapper : ℕ → ℕ) (lnid : ℕ → Fin 8 → ℕ) (tc1 tc2 : ℕ → ℚ)
    (reverseLookup : ℕ → List (ℕ × Fin 8)) (tm1 : ℕ → fvector)
    (force : ℕ → fvector) (prevForceDevice : ℕ → fvector)
    (prevLocalForce : ℕ → V24) : ℕ → fvector :=
  let forceDevice := fun n => if n < nharbored then force n else prevForceDevice n
  let localForceDevice :=
    kernelStiffnessCalcLocal myLinearElementsCount mapper lnid tc1 tc2 tm1 prevLocalForce
  let forceDevice2 := kernelStiffnessAddLocal nharbored reverseLookup localForceDevice forceDevice
  fun n => if n < nharbored then forceDevice2 n else force n

/-- Embeds the counting loop of `linear_elements_count`: the number of
elements of the local mesh for which the nonlinear predicate is false. -/
def linearElementsCountOf (nonlinear : ℕ → Bool) (lenum : ℕ) : ℕ :=
  ((List.range lenum).filter (fun eindex => nonlinear eindex = false)).length

/-- Embeds the filling loop of `linear_elements_mapping`: the indices of
linear elements, in element-index order. -/
def linearElementsMapperOf (nonlinear : ℕ → Bool) (lenum : ℕ) : List ℕ :=
  (List.range lenum).filter (fun eindex => nonlinear eindex = false)

/-- Embeds the fatal branch of `linear_elements_count`: the function calls
`MPI_Abort` exactly when the counted number exceeds the element count. -/
def linear_elements_count_aborts (nonlinear : ℕ → Bool) (lenum : ℕ) : Bool :=
  decide (linearElementsCountOf nonlinear lenum > lenum)

/-- Embeds the fatal branch of `linear_elements_mapping`: the function calls
`MPI_Abort` exactly when the number filled by the second pass (run with the
predicate `nonlinear2`, to expose a predicate that answers differently
between the two passes) differs from the stored first-pass count. -/
def linear_elements_mapping_aborts (nonlinear2 : ℕ → Bool) (lenum : ℕ)
    (myLinearElementsCount : ℕ) : Bool :=
  decide ((linearElementsMapperOf nonlinear2 lenum).length ≠ myLinearElementsCount)

/-- Embeds the device-operation checking of `stiffness_init`.  Each device
operation's success is an oracle parameter; the function returns the fatal
diagnostic (the argument of the `fprintf` before `MPI_Abort`) when the code
aborts, and `ok` when it completes.  `cudaErrStr` is what
`cudaGetErrorString(cudaGetLastError())` would produce. -/
def stiffness_init_checks (mallocOk memcpyOk : Bool) (cudaErrStr : String) :
    Except String Unit :=
  if mallocOk = false then
    Except.error "Failed to allocate mapper memory"
  else if memcpyOk = false then
    Except.error ("Failed to copy mapper to device - " ++ cudaErrStr)
  else Except.ok ()

/-- Embeds the device-operation checking of the per-step
`compute_addforce_effective_gpu`: the host-to-device force copy result is
discarded, the kernel launch is checked through `cudaGetLastError`, and the
device-to-host force copy result is discarded. -/
def compute_addforce_effective_gpu_checks (memcpyInOk launchOk memcpyOutOk : Bool)
    (cudaErrStr : String) : Except String Unit :=
  if launchOk = false then
    Except.error ("Calc stiffness local kernel - " ++ cudaErrStr)
  else Except.ok ()

/-- The spec scenario input: displacement 1.0 on the x-component of corner 0
and zero elsewhere. -/
def unitDisp0 : V24 :=
  ⟨1, 0, 0, 0, 0, 0, 0, 0, 0, 0, 0, 0, 0, 0, 0, 0, 0, 0, 0, 0, 0, 0, 0, 0⟩

/-- Concrete one-element witness mesh: corner `i` of every element is node
`i`. -/
def wLnid : ℕ → Fin 8 → ℕ := fun _ i => i.val

/-- Concrete witness displacement field: node 0 displaced by `(1, 0, 0)`,
all other nodes at rest. -/
def wTm1 : ℕ → fvector := fun nid => if nid = 0 then ⟨1, 0, 0⟩ else ⟨0, 0, 0⟩

/-- Concrete reverse adjacency table for the one-element witness mesh:
node `n < 8` is referenced exactly by corner `n` of linear element 0. -/
def wRev : ℕ → List (ℕ × Fin 8) := fun n => if h : n < 8 then [(0, ⟨n, h⟩)] else []

/-- Sub-threshold displacement: 1e-21 on corner 0's x-component (strictly
below the 1e-20 underflow cap) and zero elsewhere. -/
def tinyDisp : V24 :=
  ⟨1/10^21, 0, 0, 0, 0, 0, 0, 0, 0, 0, 0, 0, 0, 0, 0, 0, 0, 0, 0, 0, 0, 0, 0, 0⟩

/-! ## Helper lemmas -/

lemma convStep_add (k1 k2 : fmatrix) (c1 c2 : ℚ) (d t : fvector) :
    convStep k1 k2 c1 c2 d t =
      ⟨t.f0 + -c1 * (k1.f00 * d.f0 + k1.f01 * d.f1 + k1.f02 * d.f2)
            + -c2 * (k2.f00 * d.f0 + k2.f01 * d.f1 + k2.f02 * d.f2),
       t.f1 + -c1 * (k1.f10 * d.f0 + k1.f11 * d.f1 + k1.f12 * d.f2)
            + -c2 * (k2.f10 * d.f0 + k2.f11 * d.f1 + k2.f12 * d.f2),
       t.f2 + -c1 * (k1.f20 * d.f0 + k1.f21 * d.f1 + k1.f22 * d.f2)
            + -c2 * (k2.f20 * d.f0 + k2.f21 * d.f1 + k2.f22 * d.f2)⟩ := by
  rw [convStep]
  split_ifs with h
  · dsimp only [MultAddMatVec]
  · rw [vector_is_all_zero] at h
    simp only [decide_eq_true_eq, not_not] at h
    obtain ⟨h0, h1, h2⟩ := h
    rw [h0, h1, h2]
    apply fvector.ext <;> dsimp only <;> ring

lemma vector_is_zero_true_iff (v : V24) :
    vector_is_zero v = true ↔
      ∃ i : Fin 8, ∃ j : Fin 3, UNDERFLOW_CAP_STIFFNESS < |(v.corner i).comp j| := by
  rw [vector_is_zero, decide_eq_true_iff]

lemma vector_is_zero_unitDisp0 : vector_is_zero unitDisp0 = true := by
  rw [vector_is_zero_true_iff]
  refine ⟨0, 0, ?_⟩
  norm_num [unitDisp0, V24.corner, fvector.comp, UNDERFLOW_CAP_STIFFNESS]

/-! ## C9 -/

/-- C9: the three effective coefficients are derived from the element's
material pair as `a = -k(c2+2c1)`, `b = -k*c2`, `c = -k*c1`, where the
fixed constant `k = 0.5625` is exactly `9/16`; at `c1 = 2, c2 = 1` they
evaluate to `a = -2.8125`, `b = -0.5625`, `c = -1.125`.  These are the
coefficients `effectiveLocalForce` feeds into the transform chain for every
element. -/
theorem C9_effective_coefficients (c1 c2 : ℚ) :
    first_coeff c1 c2 = -(9/16) * (c2 + 2 * c1) ∧
    second_coeff c1 c2 = -(9/16) * c2 ∧
    third_coeff c1 c2 = -(9/16) * c1 ∧
    first_coeff 2 1 = -2.8125 ∧
    second_coeff 2 1 = -0.5625 ∧
    third_coeff 2 1 = -1.125 := by
  refine ⟨?_, ?_, ?_, ?_, ?_, ?_⟩ <;>
    norm_num [first_coeff, second_coeff, third_coeff]

/-! ## C5 -/

/-- C5: the Element Selector's mapping lists, in ascending element-index
order and without repetition, exactly the indices of elements whose
nonlinear predicate is false; its length equals the first-pass count and
never exceeds the element count; it is empty when every element is
nonlinear and is the full index range when none is. -/
theorem C5_linear_elements_mapping_properties (nonlinear : ℕ → Bool) (lenum : ℕ) :
    List.Sorted (· < ·) (linearElementsMapperOf nonlinear lenum) ∧
    (linearElementsMapperOf nonlinear lenum).Nodup ∧
    (∀ e : ℕ, e ∈ linearElementsMapperOf nonlinear lenum ↔
       e < lenum ∧ nonlinear e = false) ∧
    (linearElementsMapperOf nonlinear lenum).length = linearElementsCountOf nonlinear lenum ∧
    (linearElementsMapperOf nonlinear lenum).length ≤ lenum ∧
    ((∀ e, e < lenum → nonlinear e = true) → linearElementsMapperOf nonlinear lenum = []) ∧
    ((∀ e, e < lenum → nonlinear e = false) →
       linearElementsMapperOf nonlinear lenum = List.range lenum) := by
  refine ⟨?_, ?_, ?_, rfl, ?_, ?_, ?_⟩
  · exact (List.sorted_lt_range lenum).filter _
  · exact (List.nodup_range lenum).filter _
  · intro e
    simp [linearElementsMapperOf, List.mem_filter]
  · exact (List.length_filter_le _ _).trans (List.length_range lenum).le
  · intro h
    apply List.eq_nil_iff_forall_not_mem.2
    intro e he
    obtain ⟨hmem, hp⟩ := List.mem_filter.1 he
    rw [h e (List.mem_range.1 hmem)] at hp
    simp at hp
  · intro h
    apply List.filter_eq_self.2
    intro e he
    simp [h e (List.mem_range.1 he)]

/-- C5 witness: concrete instantiations discharging the two conditional
parts — with an all-nonlinear mesh of 3 elements the mapping is empty, and
with an all-linear mesh of 3 elements it is `[0, 1, 2]`. -/
theorem C5_linear_elements_mapping_properties_witness :
    linearElementsMapperOf (fun _ => true) 3 = [] ∧
    linearElementsMapperOf (fun _ => false) 3 = List.range 3 := by
  constructor
  · exact (C5_linear_elements_mapping_properties (fun _ => true) 3).2.2.2.2.2.1
      (fun _ _ => rfl)
  · exact (C5_linear_elements_mapping_properties (fun _ => false) 3).2.2.2.2.2.2
      (fun _ _ => rfl)

/-! ## C6 -/

/-- C6: the selector's fatal branches fire exactly on the stated
conditions — `linear_elements_count` aborts iff the count of
predicate-false elements exceeds the element count, and
`linear_elements_mapping` aborts iff the second pass fills a number
different from the stored first-pass count — and with any fixed (pure)
predicate neither condition can occur, so both passes complete. -/
theorem C6_selector_abort_conditions (nonlinear : ℕ → Bool) (lenum : ℕ) :
    (linear_elements_count_aborts nonlinear lenum = true ↔
       lenum < linearElementsCountOf nonlinear lenum) ∧
    (∀ (nonlinear2 : ℕ → Bool) (stored : ℕ),
       linear_elements_mapping_aborts nonlinear2 lenum stored = true ↔
         (linearElementsMapperOf nonlinear2 lenum).length ≠ stored) ∧
    linear_elements_count_aborts nonlinear lenum = false ∧
    linear_elements_mapping_aborts nonlinear lenum
      (linearElementsCountOf nonlinear lenum) = false := by
  refine ⟨?_, ?_, ?_, ?_⟩
  · rw [linear_elements_count_aborts, decide_eq_true_iff]
  · intro nonlinear2 stored
    rw [linear_elements_mapping_aborts, decide_eq_true_iff]
  · rw [linear_elements_count_aborts, decide_eq_false_iff_not, not_lt]
    exact (List.length_filter_le _ _).trans (List.length_range lenum).le
  · rw [linear_elements_mapping_aborts, decide_eq_false_iff_not, not_not]
    rfl

/-! ## C4 -/

/-- C4 counterexample: the claim "forward transform composed with inverse
transform recovers the original 24-vector up to a known scale factor" fails
on the concrete input with displacement 1.0 on component 0 and zero
elsewhere: `au` applied (from a zero accumulator) to `aTransposeU` of that
vector has -1 in the corner-1 x-slot where every scalar multiple of the
input has 0, so no scale factor exists.  (The first row of each transform
block is hard-set to 0, so the per-axis component sums are lost.) -/
theorem C4_transform_roundtrip_counterexample :
    ¬ ∃ k : ℚ, au zero24 (aTransposeU unitDisp0) = ⟨k * 1, k * 0, k * 0, k * 0, k * 0, k * 0, k * 0, k * 0, k * 0, k * 0, k * 0, k * 0, k * 0, k * 0, k * 0, k * 0, k * 0, k * 0, k * 0, k * 0, k * 0, k * 0, k * 0, k * 0⟩ := by
  rintro ⟨k, hk⟩
  have h3 := congrArg V24.u3 hk
  dsimp only [au, aTransposeU, reformU, reformF, zero24, unitDisp0] at h3
  norm_num at h3

/-- C4 (amended): reorder-then-inverse-reorder of the 24-scalar vector is
the identity; and the forward transform `aTransposeU` composed with the
inverse transform `au` (the transforms composed directly — no choice of
`a = b = c` makes the combine step an identity-scaled map, since the combine
mixes distinct slots whenever the coefficients are nonzero) equals
`8*u` minus the per-axis broadcast of that axis's component sum; in
particular it recovers `8*u` — the original up to the scale factor 8 —
exactly on inputs whose three per-axis component sums vanish. -/
theorem C4_reorder_roundtrip_and_transform_law :
    (∀ u : V24, reformF (reformU u) = u) ∧
    (∀ un : V24,
      au zero24 (aTransposeU un) =
        ⟨8 * un.u0 - (un.u0 + un.u3 + un.u6 + un.u9 + un.u12 + un.u15 + un.u18 + un.u21),
          8 * un.u1 - (un.u1 + un.u4 + un.u7 + un.u10 + un.u13 + un.u16 + un.u19 + un.u22),
          8 * un.u2 - (un.u2 + un.u5 + un.u8 + un.u11 + un.u14 + un.u17 + un.u20 + un.u23),
          8 * un.u3 - (un.u0 + un.u3 + un.u6 + un.u9 + un.u12 + un.u15 + un.u18 + un.u21),
          8 * un.u4 - (un.u1 + un.u4 + un.u7 + un.u10 + un.u13 + un.u16 + un.u19 + un.u22),
          8 * un.u5 - (un.u2 + un.u5 + un.u8 + un.u11 + un.u14 + un.u17 + un.u20 + un.u23),
          8 * un.u6 - (un.u0 + un.u3 + un.u6 + un.u9 + un.u12 + un.u15 + un.u18 + un.u21),
          8 * un.u7 - (un.u1 + un.u4 + un.u7 + un.u10 + un.u13 + un.u16 + un.u19 + un.u22),
          8 * un.u8 - (un.u2 + un.u5 + un.u8 + un.u11 + un.u14 + un.u17 + un.u20 + un.u23),
          8 * un.u9 - (un.u0 + un.u3 + un.u6 + un.u9 + un.u12 + un.u15 + un.u18 + un.u21),
          8 * un.u10 - (un.u1 + un.u4 + un.u7 + un.u10 + un.u13 + un.u16 + un.u19 + un.u22),
          8 * un.u11 - (un.u2 + un.u5 + un.u8 + un.u11 + un.u14 + un.u17 + un.u20 + un.u23),
          8 * un.u12 - (un.u0 + un.u3 + un.u6 + un.u9 + un.u12 + un.u15 + un.u18 + un.u21),
          8 * un.u13 - (un.u1 + un.u4 + un.u7 + un.u10 + un.u13 + un.u16 + un.u19 + un.u22),
          8 * un.u14 - (un.u2 + un.u5 + un.u8 + un.u11 + un.u14 + un.u17 + un.u20 + un.u23),
          8 * un.u15 - (un.u0 + un.u3 + un.u6 + un.u9 + un.u12 + un.u15 + un.u18 + un.u21),
          8 * un.u16 - (un.u1 + un.u4 + un.u7 + un.u10 + un.u13 + un.u16 + un.u19 + un.u22),
          8 * un.u17 - (un.u2 + un.u5 + un.u8 + un.u11 + un.u14 + un.u17 + un.u20 + un.u23),
          8 * un.u18 - (un.u0 + un.u3 + un.u6 + un.u9 + un.u12 + un.u15 + un.u18 + un.u21),
          8 * un.u19 - (un.u1 + un.u4 + un.u7 + un.u10 + un.u13 + un.u16 + un.u19 + un.u22),
          8 * un.u20 - (un.u2 + un.u5 + un.u8 + un.u11 + un.u14 + un.u17 + un.u20 + un.u23),
          8 * un.u21 - (un.u0 + un.u3 + un.u6 + un.u9 + un.u12 + un.u15 + un.u18 + un.u21),
          8 * un.u22 - (un.u1 + un.u4 + un.u7 + un.u10 + un.u13 + un.u16 + un.u19 + un.u22),
          8 * un.u23 - (un.u2 + un.u5 + un.u8 + un.u11 + un.u14 + un.u17 + un.u20 + un.u23)⟩) ∧
    (∀ un : V24,
      un.u0 + un.u3 + un.u6 + un.u9 + un.u12 + un.u15 + un.u18 + un.u21 = 0 →
      un.u1 + un.u4 + un.u7 + un.u10 + un.u13 + un.u16 + un.u19 + un.u22 = 0 →
      un.u2 + un.u5 + un.u8 + un.u11 + un.u14 + un.u17 + un.u20 + un.u23 = 0 →
      au zero24 (aTransposeU un) =
        ⟨8 * un.u0,
          8 * un.u1,
          8 * un.u2,
          8 * un.u3,
          8 * un.u4,
          8 * un.u5,
          8 * un.u6,
          8 * un.u7,
          8 * un.u8,
          8 * un.u9,
          8 * un.u10,
          8 * un.u11,
          8 * un.u12,
          8 * un.u13,
          8 * un.u14,
          8 * un.u15,
          8 * un.u16,
          8 * un.u17,
          8 * un.u18,
          8 * un.u19,
          8 * un.u20,
          8 * un.u21,
          8 * un.u22,
          8 * un.u23⟩) := by
  refine ⟨?_, ?_, ?_⟩
  · intro u
    apply V24.ext <;> rfl
  · intro un
    apply V24.ext <;> (dsimp only [au, aTransposeU, reformU, reformF, zero24]; ring)
  · intro un hx hy hz
    apply V24.ext <;>
      (dsimp only [au, aTransposeU, reformU, reformF, zero24]
       first
       | linear_combination -hx
       | linear_combination -hy
       | linear_combination -hz)

/-- C4 witness: on the concrete zero-axis-sum input with `u0 = 1`,
`u3 = -1` and zeros elsewhere, the transform composition returns exactly
8 times the input. -/
theorem C4_reorder_roundtrip_and_transform_law_witness :
    au zero24 (aTransposeU ⟨1, 0, 0, -1, 0, 0, 0, 0, 0, 0, 0, 0, 0, 0, 0, 0, 0, 0, 0, 0, 0, 0, 0, 0⟩) =
      ⟨8, 0, 0, -8, 0, 0, 0, 0, 0, 0, 0, 0, 0, 0, 0, 0, 0, 0, 0, 0, 0, 0, 0, 0⟩ := by
  have h := C4_reorder_roundtrip_and_transform_law.2.2
    ⟨1, 0, 0, -1, 0, 0, 0, 0, 0, 0, 0, 0, 0, 0, 0, 0, 0, 0, 0, 0, 0, 0, 0, 0⟩
    (by norm_num) (by norm_num) (by norm_num)
  rw [h]
  apply V24.ext <;> norm_num

/-! ## C10 -/

/-- C10: rigid-translation invariance.  When all 8 corner displacements
equal the same 3-vector `w`, the forward transform `aTransposeU` outputs
exactly zero (each of its rows has four +1 and four -1 entries over one
axis block, and the first row of each block is hard-set to 0), and the
Coefficient/Transform Kernel's whole local force is exactly zero on both
branches: the underflow short-circuit leaves the zeroed force untouched,
and the transform branch combines and inverts exact zeros. -/
theorem C10_rigid_translation_zero_force (w : fvector) (c1 c2 : ℚ) :
    aTransposeU (assembleDisp fun _ => w) = zero24 ∧
    effectiveLocalForce c1 c2 (assembleDisp fun _ => w) = zero24 := by
  have h1 : aTransposeU (assembleDisp fun _ => w) = zero24 := by
    apply V24.ext <;> (dsimp only [aTransposeU, reformU, assembleDisp, zero24]; try ring)
  have h2 : ∀ a c b : ℚ, firstVector zero24 a c b = zero24 := by
    intro a c b
    apply V24.ext <;> (dsimp only [firstVector, zero24]; try ring)
  have h3 : au zero24 zero24 = zero24 := by
    apply V24.ext <;> (dsimp only [au, reformF, zero24]; try ring)
  refine ⟨h1, ?_⟩
  rw [effectiveLocalForce]
  split_ifs with hz
  · rw [h1, h2, h3]
  · rfl

/-! ## C3 -/

/-- C3: when every one of the 24 displacement components has magnitude
strictly below the underflow cap 1e-20, `vector_is_zero` reports an
all-zero vector, the transform steps are skipped, and the local force is
exactly the zero vector — both in the host evaluator's per-element body
(`effectiveLocalForce`) and in the accelerator per-element kernel's slice
(`kernelStiffnessCalcLocal` at an in-range linear index whose gathered
displacement is that vector). -/
theorem C3_underflow_zero_local_force (c1 c2 : ℚ) (curDisp : V24)
    (hsmall : ∀ i : Fin 8, ∀ j : Fin 3,
       |(curDisp.corner i).comp j| < UNDERFLOW_CAP_STIFFNESS)
    (myLinearElementsCount : ℕ) (mapper : ℕ → ℕ) (lnid : ℕ → Fin 8 → ℕ)
    (tc1 tc2 : ℕ → ℚ) (tm1 : ℕ → fvector) (prevLocalForce : ℕ → V24) (l : ℕ)
    (hl : l < myLinearElementsCount)
    (hg : gatherDisp lnid tm1 (mapper l) = curDisp) :
    effectiveLocalForce c1 c2 curDisp = zero24 ∧
    kernelStiffnessCalcLocal myLinearElementsCount mapper lnid tc1 tc2 tm1
      prevLocalForce l = zero24 := by
  have hz : vector_is_zero curDisp = false := by
    rw [vector_is_zero, decide_eq_false_iff_not]
    rintro ⟨i, j, hij⟩
    exact absurd hij (not_lt.2 (hsmall i j).le)
  have he : ∀ a b : ℚ, effectiveLocalForce a b curDisp = zero24 := by
    intro a b
    rw [effectiveLocalForce]
    simp [hz]
  refine ⟨he c1 c2, ?_⟩
  rw [kernelStiffnessCalcLocal]
  rw [if_pos hl, hg]
  exact he _ _

/-- C3 witness: the all-zero displacement, on a concrete one-element mesh
whose nodes all carry zero displacement, yields the exact zero local force
on both paths. -/
theorem C3_underflow_zero_local_force_witness :
    (∀ i : Fin 8, ∀ j : Fin 3,
       |((zero24 : V24).corner i).comp j| < UNDERFLOW_CAP_STIFFNESS) ∧
    effectiveLocalForce 2 1 zero24 = zero24 ∧
    kernelStiffnessCalcLocal 1 (fun _ => 0) (fun _ _ => 0) (fun _ => 2) (fun _ => 1)
      (fun _ => ⟨0, 0, 0⟩) (fun _ => zero24) 0 = zero24 := by
  have hsmall : ∀ i : Fin 8, ∀ j : Fin 3,
      |((zero24 : V24).corner i).comp j| < UNDERFLOW_CAP_STIFFNESS := by
    intro i j
    fin_cases i <;> fin_cases j <;>
      norm_num [zero24, V24.corner, fvector.comp, UNDERFLOW_CAP_STIFFNESS]
  have h := C3_underflow_zero_local_force 2 1 zero24 hsmall 1 (fun _ => 0)
    (fun _ _ => 0) (fun _ => 2) (fun _ => 1) (fun _ => ⟨0, 0, 0⟩) (fun _ => zero24) 0
    (by norm_num) rfl
  exact ⟨hsmall, h.1, h.2⟩

/-! ## C8 -/

/-- C8 counterexample: a failed per-step host-to-device displacement/force
copy is silently ignored — with the copy reporting failure and everything
else succeeding, the per-step pipeline still completes without any abort or
diagnostic, contradicting the claim that every device copy checks for
failure and aborts on it. -/
theorem C8_unchecked_copy_counterexample :
    compute_addforce_effective_gpu_checks false true true "device error" = Except.ok () := rfl

/-- C8 (amended): device-operation error checking as implemented — the
setup-time allocation and setup copy are both checked and fatal (the
allocation failure reports a fixed message without the accelerator error
string, the copy failure reports the accelerator error string); the
per-step kernel launch is checked through the last-error query and on
failure aborts with the accelerator error string; but the per-step
host-to-device and device-to-host force copies never check their results,
so their failures do not affect the outcome. -/
theorem C8_device_error_checking_amended (cudaErrStr : String) :
    (∀ mallocOk memcpyOk : Bool,
       stiffness_init_checks mallocOk memcpyOk cudaErrStr = Except.ok () ↔
         mallocOk = true ∧ memcpyOk = true) ∧
    stiffness_init_checks false true cudaErrStr =
      Except.error "Failed to allocate mapper memory" ∧
    stiffness_init_checks true false cudaErrStr =
      Except.error ("Failed to copy mapper to device - " ++ cudaErrStr) ∧
    (∀ memcpyInOk memcpyOutOk : Bool,
       compute_addforce_effective_gpu_checks memcpyInOk false memcpyOutOk cudaErrStr =
         Except.error ("Calc stiffness local kernel - " ++ cudaErrStr)) ∧
    (∀ memcpyInOk launchOk memcpyOutOk : Bool,
       compute_addforce_effective_gpu_checks memcpyInOk launchOk memcpyOutOk cudaErrStr =
         compute_addforce_effective_gpu_checks true launchOk true cudaErrStr) := by
  refine ⟨?_, rfl, rfl, fun _ _ => rfl, fun _ _ _ => rfl⟩
  intro mallocOk memcpyOk
  cases mallocOk <;> cases memcpyOk <;> simp [stiffness_init_checks]

/-! ## C1 -/

set_option maxHeartbeats 3200000

/-- C1 counterexample: the claim fails on sub-threshold displacement
inputs.  At displacement 1e-21 on corner 0's x-component (all components
strictly below the 1e-20 underflow cap), `c1 = 2`, `c2 = 1`, the effective
path short-circuits to the exact zero force while the conventional
`K1`/`K2` path returns a nonzero corner-0 force
`(-9e-21, -2.25e-21, -2.25e-21)` — a 100% relative discrepancy that no
fixed relative tolerance covers. -/
theorem C1_underflow_relative_discrepancy_counterexample :
    (effectiveLocalForce 2 1 tinyDisp).corner 0 = ⟨0, 0, 0⟩ ∧
    conventionalLocalForce theK1 theK2 2 1 tinyDisp 0 ≠ ⟨0, 0, 0⟩ := by
  constructor
  · have hz : vector_is_zero tinyDisp = false := by
      rw [vector_is_zero, decide_eq_false_iff_not]
      rintro ⟨i, j, h⟩
      have habs : |(1:ℚ)/10^21| = 1/10^21 := abs_of_pos (by norm_num)
      fin_cases i <;> fin_cases j <;>
        (dsimp only [tinyDisp, V24.corner, fvector.comp, UNDERFLOW_CAP_STIFFNESS] at h
         simp only [abs_zero, habs] at h
         norm_num at h)
    rw [effectiveLocalForce]
    simp [hz]
    rfl
  · have hc : conventionalLocalForce theK1 theK2 2 1 tinyDisp 0 =
        ⟨-9/10^21, -9/(4 * 10^21), -9/(4 * 10^21)⟩ := by
      rw [conventionalLocalForce]
      simp only [convStep_add, theK1, theK2]
      dsimp only [V24.corner, tinyDisp]
      apply fvector.ext <;> dsimp only <;> norm_num
    rw [hc]
    intro h
    have h0 := congrArg fvector.f0 h
    norm_num at h0

/-- C1 (amended): restricted to displacement inputs on which the effective
path's underflow short-circuit does not fire (some component's magnitude
strictly above the 1e-20 cap), the Coefficient/Transform Kernel path
(`effectiveLocalForce`) produces exactly the same per-corner force vectors
as the Conventional Evaluator's explicit `K1`/`K2` dense sub-matrix path
(`conventionalLocalForce`) for the same `(c1, c2)` — exact equality over
the ideal (rational) semantics, hence agreement within any fixed relative
tolerance.  (On short-circuited sub-threshold inputs the paths differ:
see the counterexample.) -/
theorem C1_effective_matches_conventional (curDisp : V24) (c1 c2 : ℚ)
    (hv : vector_is_zero curDisp = true) (i : Fin 8) :
    conventionalLocalForce theK1 theK2 c1 c2 curDisp i =
      (effectiveLocalForce c1 c2 curDisp).corner i := by
  rw [effectiveLocalForce, if_pos hv, conventionalLocalForce]
  fin_cases i <;>
    (simp only [convStep_add, theK1, theK2]
     dsimp only [au, firstVector, aTransposeU, reformU, reformF, zero24,
       first_coeff, second_coeff, third_coeff, V24.corner]
     apply fvector.ext <;> dsimp only <;> ring)

/-- C1 witness: the spec's concrete scenario — displacement 1.0 on corner
0's x-component, `c1 = 2`, `c2 = 1` — where both evaluators agree on corner
0's force vector. -/
theorem C1_effective_matches_conventional_witness :
    vector_is_zero unitDisp0 = true ∧
    conventionalLocalForce theK1 theK2 2 1 unitDisp0 0 =
      (effectiveLocalForce 2 1 unitDisp0).corner 0 :=
  ⟨vector_is_zero_unitDisp0,
   C1_effective_matches_conventional unitDisp0 2 1 vector_is_zero_unitDisp0 0⟩

/-! ## Scatter/gather helper lemmas -/

lemma scatterCorner_apply (l : ℕ) (c : fvector) (force : ℕ → fvector) (n : ℕ) :
    scatterCorner l c force n = force n + if l = n then c else 0 := by
  rw [scatterCorner]
  rcases eq_or_ne n l with h | h
  · subst h
    rw [if_pos rfl, if_pos rfl]
  · rw [if_neg h, if_neg (Ne.symm h), add_zero]

lemma scatterElement_apply (lnids : Fin 8 → ℕ) (lf : V24) (force : ℕ → fvector) (n : ℕ) :
    scatterElement lnids lf force n =
      force n + ∑ i : Fin 8, if lnids i = n then lf.corner i else 0 := by
  rw [scatterElement]
  simp only [scatterCorner_apply]
  rw [Fin.sum_univ_eight]
  abel

lemma compute_addforce_effective_cpu_apply (myLinearElementsCount : ℕ) (mapper : ℕ → ℕ)
    (lnid : ℕ → Fin 8 → ℕ) (tc1 tc2 : ℕ → ℚ) (tm1 : ℕ → fvector)
    (force : ℕ → fvector) (n : ℕ) :
    compute_addforce_effective_cpu myLinearElementsCount mapper lnid tc1 tc2 tm1 force n =
      force n + ∑ l ∈ Finset.range myLinearElementsCount, ∑ i : Fin 8,
        if lnid (mapper l) i = n then
          (effectiveLocalForce (tc1 (mapper l)) (tc2 (mapper l))
            (gatherDisp lnid tm1 (mapper l))).corner i
        else 0 := by
  induction myLinearElementsCount with
  | zero => simp [compute_addforce_effective_cpu]
  | succ c ih =>
    rw [compute_addforce_effective_cpu, List.range_succ, List.foldl_append,
      List.foldl_cons, List.foldl_nil]
    rw [show (List.range c).foldl _ force =
          compute_addforce_effective_cpu c mapper lnid tc1 tc2 tm1 force from rfl]
    rw [scatterElement_apply, ih, Finset.sum_range_succ, add_assoc]

lemma foldl_add_sum (l : List (ℕ × Fin 8)) (g : ℕ × Fin 8 → fvector) (init : fvector) :
    l.foldl (fun a e => a + g e) init = init + (l.map g).sum := by
  induction l generalizing init with
  | nil => simp
  | cons e t ih => simp [ih, add_assoc]

lemma compute_addforce_effective_gpu_apply_lt (nharbored myLinearElementsCount : ℕ)
    (mapper : ℕ → ℕ) (lnid : ℕ → Fin 8 → ℕ) (tc1 tc2 : ℕ → ℚ)
    (reverseLookup : ℕ → List (ℕ × Fin 8)) (tm1 : ℕ → fvector)
    (force prevForceDevice : ℕ → fvector) (prevLocalForce : ℕ → V24) (n : ℕ)
    (hn : n < nharbored) :
    compute_addforce_effective_gpu nharbored myLinearElementsCount mapper lnid tc1 tc2
        reverseLookup tm1 force prevForceDevice prevLocalForce n =
      (reverseLookup n).foldl
        (fun nodalForce e =>
          nodalForce + ((kernelStiffnessCalcLocal myLinearElementsCount mapper lnid
            tc1 tc2 tm1 prevLocalForce) e.1).corner e.2)
        (force n) := by
  simp only [compute_addforce_effective_gpu, kernelStiffnessAddLocal, if_pos hn]

lemma compute_addforce_effective_gpu_apply_ge (nharbored myLinearElementsCount : ℕ)
    (mapper : ℕ → ℕ) (lnid : ℕ → Fin 8 → ℕ) (tc1 tc2 : ℕ → ℚ)
    (reverseLookup : ℕ → List (ℕ × Fin 8)) (tm1 : ℕ → fvector)
    (force prevForceDevice : ℕ → fvector) (prevLocalForce : ℕ → V24) (n : ℕ)
    (hn : ¬ n < nharbored) :
    compute_addforce_effective_gpu nharbored myLinearElementsCount mapper lnid tc1 tc2
        reverseLookup tm1 force prevForceDevice prevLocalForce n = force n := by
  simp only [compute_addforce_effective_gpu, if_neg hn]

/-! ## C2 -/

/-- C2: with a reverse adjacency table that lists, for every node and
without duplicates, exactly the (linear-element slice, corner) pairs whose
corner references that node, and with all corner node ids in range, the
accelerator path — the per-element `kernelStiffnessCalcLocal` writing
private 8-vector slices followed by the per-node `kernelStiffnessAddLocal`
gather reduction — yields for every node exactly the same force total as
the host evaluator's direct scatter-accumulation
(`compute_addforce_effective_cpu`) on the same displacement field,
coefficients and mapping. -/
theorem C2_accelerator_reduction_matches_host_scatter
    (myLinearElementsCount nharbored : ℕ) (mapper : ℕ → ℕ) (lnid : ℕ → Fin 8 → ℕ)
    (tc1 tc2 : ℕ → ℚ) (tm1 : ℕ → fvector) (reverseLookup : ℕ → List (ℕ × Fin 8))
    (force : ℕ → fvector) (prevForceDevice : ℕ → fvector) (prevLocalForce : ℕ → V24)
    (hnode : ∀ (eindex : ℕ) (i : Fin 8), lnid eindex i < nharbored)
    (hrev : ∀ n : ℕ, (reverseLookup n).Nodup ∧
       (∀ li : ℕ × Fin 8, li ∈ reverseLookup n ↔
         li.1 < myLinearElementsCount ∧ lnid (mapper li.1) li.2 = n)) (n : ℕ) :
    compute_addforce_effective_cpu myLinearElementsCount mapper lnid tc1 tc2 tm1 force n =
    compute_addforce_effective_gpu nharbored myLinearElementsCount mapper lnid tc1 tc2
      reverseLookup tm1 force prevForceDevice prevLocalForce n := by
  rw [compute_addforce_effective_cpu_apply]
  by_cases hn : n < nharbored
  · rw [compute_addforce_effective_gpu_apply_lt _ _ _ _ _ _ _ _ _ _ _ _ hn,
      foldl_add_sum]
    congr 1
    obtain ⟨hnd, hmem⟩ := hrev n
    rw [← List.sum_toFinset _ hnd]
    have hset : (reverseLookup n).toFinset =
        (Finset.range myLinearElementsCount ×ˢ (Finset.univ : Finset (Fin 8))).filter
          (fun li => lnid (mapper li.1) li.2 = n) := by
      ext li
      simp only [List.mem_toFinset, hmem li, Finset.mem_filter, Finset.mem_product,
        Finset.mem_range, Finset.mem_univ, and_true]
    rw [hset, Finset.sum_filter, Finset.sum_product]
    apply Finset.sum_congr rfl
    intro l hl
    apply Finset.sum_congr rfl
    intro i _
    rw [kernelStiffnessCalcLocal]
    rw [if_pos (Finset.mem_range.1 hl)]
  · rw [compute_addforce_effective_gpu_apply_ge _ _ _ _ _ _ _ _ _ _ _ _ hn]
    rw [Finset.sum_eq_zero, add_zero]
    intro l _
    rw [Finset.sum_eq_zero]
    intro i _
    rw [if_neg]
    intro heq
    have := hnode (mapper l) i
    omega

/-- C2 witness: the concrete one-element witness mesh (8 nodes, node 0
displaced, `c1 = 2`, `c2 = 1`) on which host scatter and accelerator gather
agree at node 0. -/
theorem C2_accelerator_reduction_matches_host_scatter_witness :
    (∀ (eindex : ℕ) (i : Fin 8), wLnid eindex i < 8) ∧
    compute_addforce_effective_cpu 1 (fun e => e) wLnid (fun _ => 2) (fun _ => 1)
      wTm1 (fun _ => 0) 0 =
    compute_addforce_effective_gpu 8 1 (fun e => e) wLnid (fun _ => 2) (fun _ => 1)
      wRev wTm1 (fun _ => 0) (fun _ => 0) (fun _ => zero24) 0 := by
  have hnode : ∀ (eindex : ℕ) (i : Fin 8), wLnid eindex i < 8 := fun _ i => i.isLt
  refine ⟨hnode, ?_⟩
  apply C2_accelerator_reduction_matches_host_scatter _ _ _ _ _ _ _ _ _ _ _ hnode
  intro n
  constructor
  · rw [wRev]
    split_ifs <;> simp
  · intro li
    rw [wRev]
    split_ifs with h
    · simp only [List.mem_singleton]
      constructor
      · rintro rfl
        exact ⟨Nat.zero_lt_one, rfl⟩
      · rintro ⟨h1, h2⟩
        obtain ⟨a, b⟩ := li
        dsimp only [wLnid] at h2
        have ha : a = 0 := by omega
        subst ha
        simp [Prod.ext_iff, Fin.ext_iff, h2]
    · simp only [List.not_mem_nil, false_iff]
      rintro ⟨h1, h2⟩
      dsimp only [wLnid] at h2
      have := li.2.isLt
      omega

/-! ## C7 -/

/-- C7: the global force accumulator update contract.  The host path
mutates the caller's accumulator additively: each entry of the output is
the caller's existing entry plus that node's accumulated element
contributions.  The accelerator path replaces the accumulator wholesale:
for every staged node the returned value is the device-side reduction
result (seeded from the staged-in host values and independent of the
device copy's previous contents, which the staging copy overwrites), and
nodes outside the staged range keep the host value. -/
theorem C7_force_accumulator_update_contract (myLinearElementsCount nharbored : ℕ)
    (mapper : ℕ → ℕ) (lnid : ℕ → Fin 8 → ℕ) (tc1 tc2 : ℕ → ℚ) (tm1 : ℕ → fvector)
    (reverseLookup : ℕ → List (ℕ × Fin 8)) :
    (∀ (force : ℕ → fvector) (n : ℕ),
       compute_addforce_effective_cpu myLinearElementsCount mapper lnid tc1 tc2 tm1 force n =
         force n + ∑ l ∈ Finset.range myLinearElementsCount, ∑ i : Fin 8,
           if lnid (mapper l) i = n then
             (effectiveLocalForce (tc1 (mapper l)) (tc2 (mapper l))
               (gatherDisp lnid tm1 (mapper l))).corner i
           else 0) ∧
    (∀ (force prevForceDevice : ℕ → fvector) (prevLocalForce : ℕ → V24) (n : ℕ),
       n < nharbored →
       compute_addforce_effective_gpu nharbored myLinearElementsCount mapper lnid tc1 tc2
           reverseLookup tm1 force prevForceDevice prevLocalForce n =
         (reverseLookup n).foldl
           (fun nodalForce e =>
             nodalForce + ((kernelStiffnessCalcLocal myLinearElementsCount mapper lnid
               tc1 tc2 tm1 prevLocalForce) e.1).corner e.2)
           (force n)) ∧
    (∀ (force prevForceDevice : ℕ → fvector) (prevLocalForce : ℕ → V24) (n : ℕ),
       ¬ n < nharbored →
       compute_addforce_effective_gpu nharbored myLinearElementsCount mapper lnid tc1 tc2
           reverseLookup tm1 force prevForceDevice prevLocalForce n = force n) :=
  ⟨fun force n =>
     compute_addforce_effective_cpu_apply myLinearElementsCount mapper lnid tc1 tc2 tm1 force n,
   fun force prevForceDevice prevLocalForce n hn =>
     compute_addforce_effective_gpu_apply_lt nharbored myLinearElementsCount mapper lnid
       tc1 tc2 reverseLookup tm1 force prevForceDevice prevLocalForce n hn,
   fun force prevForceDevice prevLocalForce n hn =>
     compute_addforce_effective_gpu_apply_ge nharbored myLinearElementsCount mapper lnid
       tc1 tc2 reverseLookup tm1 force prevForceDevice prevLocalForce n hn⟩

/-- C7 witness: on the one-element witness mesh, node 0 (staged) receives
the device reduction result seeded from the host value, and node 9 (outside
the 8 staged nodes) keeps the host value. -/
theorem C7_force_accumulator_update_contract_witness :
    (0 : ℕ) < 8 ∧
    ¬ (9 : ℕ) < 8 ∧
    compute_addforce_effective_gpu 8 1 (fun e => e) wLnid (fun _ => 2) (fun _ => 1)
      wRev wTm1 (fun _ => 0) (fun _ => 0) (fun _ => zero24) 0 =
      (wRev 0).foldl
        (fun nodalForce e =>
          nodalForce + ((kernelStiffnessCalcLocal 1 (fun e => e) wLnid
            (fun _ => 2) (fun _ => 1) wTm1 (fun _ => zero24)) e.1).corner e.2)
        ((fun _ => (0 : fvector)) 0) ∧
    compute_addforce_effective_gpu 8 1 (fun e => e) wLnid (fun _ => 2) (fun _ => 1)
      wRev wTm1 (fun _ => 0) (fun _ => 0) (fun _ => zero24) 9 = (fun _ => (0 : fvector)) 9 :=
  ⟨by norm_num, by norm_num,
   (C7_force_accumulator_update_contract 1 8 (fun e => e) wLnid (fun _ => 2) (fun _ => 1)
      wTm1 wRev).2.1 (fun _ => 0) (fun _ => 0) (fun _ => zero24) 0 (by norm_num),
   (C7_force_accumulator_update_contract 1 8 (fun e => e) wLnid (fun _ => 2) (fun _ => 1)
      wTm1 wRev).2.2 (fun _ => 0) (fun _ => 0) (fun _ => zero24) 9 (by norm_num)⟩
